import Mathlib

/-!
# Verification of the ICS Outlook proxy (src/proxy.ts)

Shallow embedding of the Deno request handler in `src/proxy.ts`.  The file
holds two variants of the server: an authenticated one (token query
parameter, `/health` endpoint) and an earlier unauthenticated one (no token
check, no `/health` route).  Both are embedded below.

Modelling choices:
* The process environment and the module-level constants `ICS_URL` and
  `ACCESS_TOKEN` are `Option String` (TypeScript `string | undefined`):
  `Deno.env.get` returns `undefined` when the variable is unset, and the
  non-null assertion `!` has no runtime effect.
* The upstream HTTP answer is an oracle value `UpstreamResponse` passed to
  the handler: its status, its statusText, and the outcome of reading its
  body as text (`Except String String`, where `.error e` models
  `response.text()` rejecting with a JavaScript error whose message is `e`).
* `handleRequest` returns the HTTP response together with the number of
  upstream fetch calls that were issued, so that "no upstream fetch is
  attempted" and "exactly one upstream attempt" are statable.
* `console.*` logging is observability only and is not modelled, except for
  the `BEGIN:VCALENDAR` warning of `downloadICSFile`, which is returned as a
  Boolean flag so that the advisory nature of the validation is statable.
-/

/-- Process environment: the two variables read at module load
(src/proxy.ts lines 15-16).  `none` models an unset variable. -/
structure Env where
  ICS_URL : Option String
  ACCESS_TOKEN : Option String
deriving Repr, DecidableEq

/-- The module-level configuration after startup.  Fields are still
`Option String` because the TypeScript non-null assertion `!` is erased at
runtime: an unset variable yields `undefined`, not an error. -/
structure Config where
  icsUrl : Option String
  accessToken : Option String
deriving Repr, DecidableEq

/-- Startup (src/proxy.ts lines 15-17 and the `import.meta.main` block,
lines 124-134): the environment reads carry a TypeScript non-null assertion,
which performs no runtime check, and the main block only logs and then
unconditionally calls `Deno.serve`.  There is no failure path: startup
always succeeds, even with both variables unset. -/
def startupConfig (e : Env) : Except String Config :=
  .ok { icsUrl := e.ICS_URL, accessToken := e.ACCESS_TOKEN }

/-- The answer of the upstream server to the single `fetch` of a request, as an
oracle: status code, status text, and the result of reading the body as
text.  `bodyRead = .error e` models `response.text()` rejecting with a
JavaScript error whose message is `e`. -/
structure UpstreamResponse where
  status : Nat
  statusText : String
  bodyRead : Except String String
deriving Repr

/-- The predicate `Response.ok` of the Fetch standard: status in the inclusive range
200-299 (used at src/proxy.ts line 34). -/
def UpstreamResponse.respOk (r : UpstreamResponse) : Bool :=
  200 ≤ r.status && r.status ≤ 299

/-- JavaScript `s.substring(0, n)` (src/proxy.ts line 36): the first `n`
characters of `s` (all of `s` when it is shorter). -/
def jsSubstringTo (s : String) (n : Nat) : String :=
  ⟨s.data.take n⟩

/-- The pattern `pat` matches at the front of `l` (character-wise). -/
def charsMatch : List Char → List Char → Bool
  | [], _ => true
  | _ :: _, [] => false
  | p :: ps, c :: cs => p == c && charsMatch ps cs

/-- The pattern `pat` occurs as a contiguous run somewhere in `l`. -/
def hasSubstr (pat : List Char) : List Char → Bool
  | [] => charsMatch pat []
  | c :: cs => charsMatch pat (c :: cs) || hasSubstr pat cs

/-- JavaScript `s.includes(sub)` for the literal `BEGIN:VCALENDAR`
(src/proxy.ts line 42): the pattern occurs as a substring of `s`. -/
def includesVCalendar (s : String) : Bool :=
  hasSubstr "BEGIN:VCALENDAR".data s.data

/-- The error-branch body excerpt of `downloadICSFile` (src/proxy.ts
lines 35-36): the body is read best-effort, a read failure is replaced by
the fixed text `Unable to read error response`, and the result is
truncated with `substring(0, 200)`. -/
def errorExcerpt (u : UpstreamResponse) : String :=
  jsSubstringTo (match u.bodyRead with
    | .ok t => t
    | .error _ => "Unable to read error response") 200

/-- The message of the `Error` thrown at src/proxy.ts line 36 for a
non-success upstream status. -/
def httpErrorMessage (u : UpstreamResponse) : String :=
  "HTTP error! status: " ++ toString u.status ++ " - " ++ u.statusText ++
    "\nResponse body: " ++ errorExcerpt u ++ "..."

/-- Function `downloadICSFile` (src/proxy.ts lines 19-48), both variants share it
verbatim.  Returns `(outcome, fetches)` where `outcome` is `.error msg` for
a thrown error with message `msg`, or `.ok (content, warned)` with `warned`
the Boolean of the advisory `console.warn` at lines 42-44; `fetches` counts
upstream fetch calls issued.  When `ICS_URL` is unset the call
`fetch(undefined, ...)` rejects with a `TypeError` (an undefined URL cannot
be parsed) before any network request is made. -/
def downloadICSFile (cfg : Config) (u : UpstreamResponse) :
    Except String (String × Bool) × Nat :=
  match cfg.icsUrl with
  | none => (.error "Invalid URL: undefined", 0)
  | some _ =>
    if u.respOk = false then
      (.error (httpErrorMessage u), 1)
    else
      match u.bodyRead with
      | .error e => (.error e, 1)
      | .ok icsContent =>
          (.ok (icsContent, !(includesVCalendar icsContent)), 1)

/-- An inbound HTTP request, as the handler observes it: method, URL path,
and `url.searchParams.get("token")` (`none` when the parameter is absent,
`some ""` for `?token=`). -/
structure Request where
  method : String
  path : String
  token : Option String
deriving Repr, DecidableEq

/-- An HTTP response: status, headers in construction order, body. -/
structure HttpResponse where
  status : Nat
  headers : List (String × String)
  body : String
deriving Repr, DecidableEq

/-- The 401 response of src/proxy.ts lines 63-68. -/
def tokenRequiredResponse : HttpResponse :=
  { status := 401, headers := [("Content-Type", "text/plain")],
    body := "Unauthorized: Token parameter required" }

/-- The 401 response of src/proxy.ts lines 73-78. -/
def invalidTokenResponse : HttpResponse :=
  { status := 401, headers := [("Content-Type", "text/plain")],
    body := "Unauthorized: Invalid token" }

/-- The 200 calendar response of src/proxy.ts lines 84-93. -/
def calendarResponse (body : String) : HttpResponse :=
  { status := 200,
    headers := [("Content-Type", "text/calendar; charset=utf-8"),
      ("Content-Disposition", "attachment; filename=\"calendar.ics\""),
      ("Cache-Control", "no-cache, no-store, must-revalidate"),
      ("Pragma", "no-cache"),
      ("Expires", "0")],
    body := body }

/-- The 200 health response of src/proxy.ts lines 96-101. -/
def healthResponse : HttpResponse :=
  { status := 200, headers := [("Content-Type", "text/plain")], body := "OK" }

/-- The 404 response of src/proxy.ts lines 104-109. -/
def notFoundResponse : HttpResponse :=
  { status := 404, headers := [("Content-Type", "text/plain")],
    body := "Not Found" }

/-- The catch-block 500 response of src/proxy.ts lines 111-120: the message of the error embedded in the body. -/
def internalErrorResponse (msg : String) : HttpResponse :=
  { status := 500, headers := [("Content-Type", "text/plain")],
    body := "Internal Server Error: " ++ msg }

/-- Function `handleRequest` of the authenticated variant (src/proxy.ts
lines 50-121).  Returns the response together with the number of upstream
fetch calls issued while serving the request.  The guard `if (!token)` at
line 61 is JavaScript falsiness: true for `null` and for the empty string,
hence the `none` case and the `t = ""` test.  The comparison at line 71 is
`token !== ACCESS_TOKEN` on `string` vs `string | undefined`, embedded as
equality of `some t` with the optional configured token. -/
def handleRequest (cfg : Config) (u : UpstreamResponse) (req : Request) :
    HttpResponse × Nat :=
  if req.path = "/calendar.ics" then
    match req.token with
    | none => (tokenRequiredResponse, 0)
    | some t =>
      if t = "" then
        (tokenRequiredResponse, 0)
      else if some t ≠ cfg.accessToken then
        (invalidTokenResponse, 0)
      else
        match downloadICSFile cfg u with
        | (.error msg, n) => (internalErrorResponse msg, n)
        | (.ok (icsContent, _), n) => (calendarResponse icsContent, n)
  else if req.path = "/health" then
    (healthResponse, 0)
  else
    (notFoundResponse, 0)

/-- Function `handleRequest` of the earlier, unauthenticated variant (second half of
src/proxy.ts): no token check, and no `/health` branch at all — every path
other than `/calendar.ics` falls through to the 404 branch. -/
def handleRequestNoAuth (cfg : Config) (u : UpstreamResponse)
    (req : Request) : HttpResponse × Nat :=
  if req.path = "/calendar.ics" then
    match downloadICSFile cfg u with
    | (.error msg, n) => (internalErrorResponse msg, n)
    | (.ok (icsContent, _), n) => (calendarResponse icsContent, n)
  else
    (notFoundResponse, 0)

/-- A concrete upstream answer used by closed witnesses. -/
def sampleUpstream : UpstreamResponse :=
  { status := 200, statusText := "OK",
    bodyRead := .ok "BEGIN:VCALENDAR\nEND:VCALENDAR" }

/-! ## Helper lemmas -/

/-- Unfolding `handleRequest` on the calendar path with a present token. -/
theorem handleRequest_calendar_token (cfg : Config) (u : UpstreamResponse)
    (m : String) (t : String) :
    handleRequest cfg u ⟨m, "/calendar.ics", some t⟩ =
      if t = "" then (tokenRequiredResponse, 0)
      else if some t ≠ cfg.accessToken then (invalidTokenResponse, 0)
      else
        match downloadICSFile cfg u with
        | (.error msg, n) => (internalErrorResponse msg, n)
        | (.ok (c, _), n) => (calendarResponse c, n) := rfl

/-- Unfolding `downloadICSFile` when the upstream URL is configured. -/
theorem downloadICSFile_configured (cfg : Config) (u : UpstreamResponse)
    (s : String) (hurl : cfg.icsUrl = some s) :
    downloadICSFile cfg u =
      if u.respOk = false then (.error (httpErrorMessage u), 1)
      else
        match u.bodyRead with
        | .error e => (.error e, 1)
        | .ok c => (.ok (c, !(includesVCalendar c)), 1) := by
  unfold downloadICSFile
  rw [hurl]

/-- Unfolding `downloadICSFile` when the upstream URL is unset: the
`fetch(undefined)` call rejects before any network request. -/
theorem downloadICSFile_noUrl (cfg : Config) (u : UpstreamResponse)
    (hurl : cfg.icsUrl = none) :
    downloadICSFile cfg u = (.error "Invalid URL: undefined", 0) := by
  unfold downloadICSFile
  rw [hurl]

/-- A call `substring(0, n)` returns at most `n` characters. -/
theorem jsSubstringTo_length_le (s : String) (n : Nat) :
    (jsSubstringTo s n).length ≤ n := by
  unfold jsSubstringTo
  show (s.data.take n).length ≤ n
  simp

/-! ## Claim theorems -/

/-- C1: for every request to `/calendar.ics` carrying a token equal to the
configured access token (which configuration requires to be non-empty), when
the upstream fetch succeeds (2xx status, readable body), the handler returns
status 200 with exactly the five fixed headers and a body equal
byte-for-byte to the upstream body, issuing exactly one upstream fetch. -/
theorem calendar_success_relays_upstream_body (cfg : Config)
    (u : UpstreamResponse) (req : Request) (t b s : String)
    (hpath : req.path = "/calendar.ics") (htok : req.token = some t)
    (hne : t ≠ "") (hcfg : cfg.accessToken = some t)
    (hurl : cfg.icsUrl = some s)
    (hok : u.respOk = true) (hbody : u.bodyRead = .ok b) :
    handleRequest cfg u req =
      ({ status := 200,
         headers := [("Content-Type", "text/calendar; charset=utf-8"),
           ("Content-Disposition", "attachment; filename=\"calendar.ics\""),
           ("Cache-Control", "no-cache, no-store, must-revalidate"),
           ("Pragma", "no-cache"),
           ("Expires", "0")],
         body := b }, 1) := by
  obtain ⟨m, p, tok⟩ := req
  simp only at hpath htok
  subst hpath; subst htok
  rw [handleRequest_calendar_token, if_neg hne, if_neg (by simp [hcfg]),
    downloadICSFile_configured cfg u s hurl, hok]
  simp [hbody, calendarResponse]

/-- C1 witness: a concrete authenticated request relayed verbatim. -/
theorem calendar_success_relays_upstream_body_witness :
    handleRequest ⟨some "https://example.test/cal.ics", some "secret123"⟩
      sampleUpstream ⟨"GET", "/calendar.ics", some "secret123"⟩ =
      ({ status := 200,
         headers := [("Content-Type", "text/calendar; charset=utf-8"),
           ("Content-Disposition", "attachment; filename=\"calendar.ics\""),
           ("Cache-Control", "no-cache, no-store, must-revalidate"),
           ("Pragma", "no-cache"),
           ("Expires", "0")],
         body := "BEGIN:VCALENDAR\nEND:VCALENDAR" }, 1) :=
  calendar_success_relays_upstream_body _ _ _ "secret123"
    "BEGIN:VCALENDAR\nEND:VCALENDAR" "https://example.test/cal.ics"
    rfl rfl (by decide) rfl rfl rfl rfl

/-- C2: a request to `/calendar.ics` with no `token` query parameter is
answered 401 with the token-required plaintext body, and no upstream fetch
is attempted (fetch count 0). -/
theorem missing_token_unauthorized (cfg : Config) (u : UpstreamResponse)
    (req : Request)
    (hpath : req.path = "/calendar.ics") (htok : req.token = none) :
    handleRequest cfg u req =
      ({ status := 401, headers := [("Content-Type", "text/plain")],
         body := "Unauthorized: Token parameter required" }, 0) := by
  obtain ⟨m, p, tok⟩ := req
  simp only at hpath htok
  subst hpath; subst htok
  rfl

/-- C2 witness: a concrete tokenless request. -/
theorem missing_token_unauthorized_witness :
    handleRequest ⟨some "https://example.test/cal.ics", some "secret123"⟩
      sampleUpstream ⟨"GET", "/calendar.ics", none⟩ =
      ({ status := 401, headers := [("Content-Type", "text/plain")],
         body := "Unauthorized: Token parameter required" }, 0) :=
  missing_token_unauthorized _ _ _ rfl rfl

/-- C3 counterexample: the claim quantifies over every present-but-unequal
token, but the empty-string token (`?token=`) is present and unequal to the
configured token `secret123`, yet the handler answers with the
token-required body, not the invalid-token body. -/
theorem empty_token_not_invalid_message :
    (handleRequest ⟨some "https://example.test/cal.ics", some "secret123"⟩
        sampleUpstream ⟨"GET", "/calendar.ics", some ""⟩).1.body =
      "Unauthorized: Token parameter required" ∧
    (handleRequest ⟨some "https://example.test/cal.ics", some "secret123"⟩
        sampleUpstream ⟨"GET", "/calendar.ics", some ""⟩).1.body ≠
      "Unauthorized: Invalid token" := by
  constructor
  · rfl
  · decide

/-- C3 (amended): a request to `/calendar.ics` whose token is present,
non-empty, and not equal (exact string comparison) to the configured access
token is answered 401 with the invalid-token plaintext body, and no upstream
fetch is attempted; empty-string tokens instead fall into the missing-token
branch. -/
theorem nonequal_token_unauthorized (cfg : Config) (u : UpstreamResponse)
    (req : Request) (t : String)
    (hpath : req.path = "/calendar.ics") (htok : req.token = some t)
    (hne : t ≠ "") (hneq : some t ≠ cfg.accessToken) :
    handleRequest cfg u req =
      ({ status := 401, headers := [("Content-Type", "text/plain")],
         body := "Unauthorized: Invalid token" }, 0) := by
  obtain ⟨m, p, tok⟩ := req
  simp only at hpath htok
  subst hpath; subst htok
  rw [handleRequest_calendar_token, if_neg hne, if_pos hneq]
  rfl

/-- C3 witness: a concrete wrong token. -/
theorem nonequal_token_unauthorized_witness :
    handleRequest ⟨some "https://example.test/cal.ics", some "secret123"⟩
      sampleUpstream ⟨"GET", "/calendar.ics", some "wrong"⟩ =
      ({ status := 401, headers := [("Content-Type", "text/plain")],
         body := "Unauthorized: Invalid token" }, 0) :=
  nonequal_token_unauthorized _ _ _ "wrong" rfl rfl (by decide) (by decide)

/-- C4: for an authenticated request whose upstream answer has a
non-success status, the handler returns 500 with body
`Internal Server Error: <message>` after exactly one upstream attempt; the
message carries the upstream status code and a body excerpt of at most 200
characters, and a body-read failure is replaced by a fixed text rather than
propagating. -/
theorem upstream_failure_internal_error (cfg : Config)
    (u : UpstreamResponse) (req : Request) (t s : String)
    (hpath : req.path = "/calendar.ics") (htok : req.token = some t)
    (hne : t ≠ "") (hcfg : cfg.accessToken = some t)
    (hurl : cfg.icsUrl = some s)
    (hfail : u.respOk = false) :
    handleRequest cfg u req =
      ({ status := 500, headers := [("Content-Type", "text/plain")],
         body := "Internal Server Error: " ++ httpErrorMessage u }, 1) ∧
    httpErrorMessage u = "HTTP error! status: " ++ toString u.status ++
      " - " ++ u.statusText ++ "\nResponse body: " ++ errorExcerpt u ++
      "..." ∧
    (errorExcerpt u).length ≤ 200 ∧
    (∀ e, u.bodyRead = .error e →
      errorExcerpt u = "Unable to read error response") := by
  refine ⟨?_, rfl, ?_, ?_⟩
  · obtain ⟨m, p, tok⟩ := req
    simp only at hpath htok
    subst hpath; subst htok
    rw [handleRequest_calendar_token, if_neg hne, if_neg (by simp [hcfg]),
      downloadICSFile_configured cfg u s hurl, hfail]
    simp [internalErrorResponse]
  · exact jsSubstringTo_length_le _ 200
  · intro e he
    unfold errorExcerpt
    rw [he]
    rfl

/-- C4 witness: a concrete 503 upstream answer whose body read also fails,
converted to a 500 response. -/
theorem upstream_failure_internal_error_witness :
    handleRequest ⟨some "https://example.test/cal.ics", some "secret123"⟩
      ⟨503, "Service Unavailable", .error "boom"⟩
      ⟨"GET", "/calendar.ics", some "secret123"⟩ =
      ({ status := 500, headers := [("Content-Type", "text/plain")],
         body := "Internal Server Error: " ++
           httpErrorMessage ⟨503, "Service Unavailable", .error "boom"⟩ },
        1) :=
  (upstream_failure_internal_error
    ⟨some "https://example.test/cal.ics", some "secret123"⟩
    ⟨503, "Service Unavailable", .error "boom"⟩
    ⟨"GET", "/calendar.ics", some "secret123"⟩ "secret123"
    "https://example.test/cal.ics" rfl rfl (by decide) rfl rfl rfl).1

/-- C5: for an authenticated request whose successful upstream body lacks
the substring `BEGIN:VCALENDAR`, `downloadICSFile` raises the advisory
warning (flag `true`) but still returns the body unchanged, and the handler
still delivers the 200 calendar response with that body. -/
theorem missing_vcalendar_warning_nonblocking (cfg : Config)
    (u : UpstreamResponse) (req : Request) (t b s : String)
    (hpath : req.path = "/calendar.ics") (htok : req.token = some t)
    (hne : t ≠ "") (hcfg : cfg.accessToken = some t)
    (hurl : cfg.icsUrl = some s)
    (hok : u.respOk = true) (hbody : u.bodyRead = .ok b)
    (hnovcal : includesVCalendar b = false) :
    downloadICSFile cfg u = (.ok (b, true), 1) ∧
    handleRequest cfg u req =
      ({ status := 200,
         headers := [("Content-Type", "text/calendar; charset=utf-8"),
           ("Content-Disposition", "attachment; filename=\"calendar.ics\""),
           ("Cache-Control", "no-cache, no-store, must-revalidate"),
           ("Pragma", "no-cache"),
           ("Expires", "0")],
         body := b }, 1) := by
  have hdl : downloadICSFile cfg u = (.ok (b, true), 1) := by
    rw [downloadICSFile_configured cfg u s hurl, hok]
    simp [hbody, hnovcal]
  refine ⟨hdl, ?_⟩
  obtain ⟨m, p, tok⟩ := req
  simp only at hpath htok
  subst hpath; subst htok
  rw [handleRequest_calendar_token, if_neg hne, if_neg (by simp [hcfg]), hdl]
  rfl

/-- C5 witness: a concrete non-calendar body is still relayed with 200. -/
theorem missing_vcalendar_warning_nonblocking_witness :
    downloadICSFile ⟨some "https://example.test/cal.ics", some "secret123"⟩
      ⟨200, "OK", .ok "hello world"⟩ = (.ok ("hello world", true), 1) :=
  (missing_vcalendar_warning_nonblocking
    ⟨some "https://example.test/cal.ics", some "secret123"⟩
    ⟨200, "OK", .ok "hello world"⟩
    ⟨"GET", "/calendar.ics", some "secret123"⟩ "secret123" "hello world"
    "https://example.test/cal.ics" rfl rfl (by decide) rfl rfl rfl rfl
    (by decide)).1

/-- C6 counterexample: the claim quantifies over every variant of the
server, but the unauthenticated variant registers no `/health` route: its
handler answers a `/health` request with 404, not 200. -/
theorem health_unauth_variant_not_found :
    (handleRequestNoAuth ⟨some "https://example.test/cal.ics", none⟩
        sampleUpstream ⟨"GET", "/health", none⟩).1 =
      { status := 404, headers := [("Content-Type", "text/plain")],
        body := "Not Found" } ∧
    (handleRequestNoAuth ⟨some "https://example.test/cal.ics", none⟩
        sampleUpstream ⟨"GET", "/health", none⟩).1.status ≠ 200 := by
  constructor
  · rfl
  · decide

/-- C6 (amended): in the authenticated variant, every request with path
`/health` is answered 200 with body exactly `OK` and Content-Type
text/plain, regardless of configuration, method or token, with no upstream
fetch; the unauthenticated variant has no `/health` route and answers 404
`Not Found`. -/
theorem health_endpoint_by_variant (cfg : Config) (u : UpstreamResponse)
    (req : Request) (hpath : req.path = "/health") :
    handleRequest cfg u req =
      ({ status := 200, headers := [("Content-Type", "text/plain")],
         body := "OK" }, 0) ∧
    handleRequestNoAuth cfg u req =
      ({ status := 404, headers := [("Content-Type", "text/plain")],
         body := "Not Found" }, 0) := by
  obtain ⟨m, p, tok⟩ := req
  simp only at hpath
  subst hpath
  exact ⟨rfl, rfl⟩

/-- C6 witness: a concrete POST `/health` request with empty
configuration. -/
theorem health_endpoint_by_variant_witness :
    handleRequest ⟨none, none⟩ sampleUpstream ⟨"POST", "/health", none⟩ =
      ({ status := 200, headers := [("Content-Type", "text/plain")],
         body := "OK" }, 0) :=
  (health_endpoint_by_variant ⟨none, none⟩ sampleUpstream
    ⟨"POST", "/health", none⟩ rfl).1

/-- C7: every request whose path is neither `/calendar.ics` nor `/health`
is answered 404 with body exactly `Not Found` and Content-Type text/plain,
for any HTTP method, with no upstream fetch. -/
theorem unknown_path_not_found (cfg : Config) (u : UpstreamResponse)
    (req : Request)
    (h1 : req.path ≠ "/calendar.ics") (h2 : req.path ≠ "/health") :
    handleRequest cfg u req =
      ({ status := 404, headers := [("Content-Type", "text/plain")],
         body := "Not Found" }, 0) := by
  unfold handleRequest
  rw [if_neg h1, if_neg h2]
  rfl

/-- C7 witness: a concrete DELETE request for an unknown path. -/
theorem unknown_path_not_found_witness :
    handleRequest ⟨some "https://example.test/cal.ics", some "secret123"⟩
      sampleUpstream ⟨"DELETE", "/foo", none⟩ =
      ({ status := 404, headers := [("Content-Type", "text/plain")],
         body := "Not Found" }, 0) :=
  unknown_path_not_found _ _ ⟨"DELETE", "/foo", none⟩ (by decide) (by decide)

/-- C8 counterexample: with both `ICS_URL` and `ACCESS_TOKEN` unset,
startup succeeds (the TypeScript non-null assertion has no runtime effect
and the main block starts the server unconditionally) and the service
accepts traffic: `/health` is served 200.  The claim that the process fails
fatally rather than serving is false on the code. -/
theorem missing_config_still_serves :
    startupConfig ⟨none, none⟩ = .ok ⟨none, none⟩ ∧
    (handleRequest ⟨none, none⟩ sampleUpstream
        ⟨"GET", "/health", none⟩).1.status = 200 :=
  ⟨rfl, rfl⟩

/-- C8 (amended): missing configuration is not fatal: startup always
succeeds and the service accepts traffic (`/health` answers 200).  The
service still never serves calendar data with an undefined token: with
`ACCESS_TOKEN` unset every `/calendar.ics` request gets 401 and no upstream
fetch, and with `ICS_URL` unset an otherwise authenticated request gets 500
(the fetch of an undefined URL rejects). -/
theorem missing_config_not_fatal (e : Env) :
    startupConfig e = .ok ⟨e.ICS_URL, e.ACCESS_TOKEN⟩ ∧
    (∀ u req, req.path = "/health" →
      handleRequest { icsUrl := e.ICS_URL, accessToken := e.ACCESS_TOKEN }
          u req =
        ({ status := 200, headers := [("Content-Type", "text/plain")],
           body := "OK" }, 0)) ∧
    (e.ACCESS_TOKEN = none → ∀ u req, req.path = "/calendar.ics" →
      (handleRequest { icsUrl := e.ICS_URL, accessToken := e.ACCESS_TOKEN }
          u req).1.status = 401 ∧
      (handleRequest { icsUrl := e.ICS_URL, accessToken := e.ACCESS_TOKEN }
          u req).2 = 0) ∧
    (e.ICS_URL = none → ∀ u req t, req.path = "/calendar.ics" →
      req.token = some t → t ≠ "" → e.ACCESS_TOKEN = some t →
      (handleRequest { icsUrl := e.ICS_URL, accessToken := e.ACCESS_TOKEN }
          u req).1.status = 500) := by
  refine ⟨rfl, ?_, ?_, ?_⟩
  · intro u req hpath
    obtain ⟨m, p, tok⟩ := req
    simp only at hpath
    subst hpath
    rfl
  · intro hnone u req hpath
    obtain ⟨m, p, tok⟩ := req
    simp only at hpath
    subst hpath
    match tok with
    | none => exact ⟨rfl, rfl⟩
    | some t =>
      by_cases ht : t = ""
      · subst ht
        exact ⟨rfl, rfl⟩
      · rw [handleRequest_calendar_token, if_neg ht,
          if_pos (by simp [hnone])]
        exact ⟨rfl, rfl⟩
  · intro hurl u req t hpath htok hne hcfg
    obtain ⟨m, p, tok⟩ := req
    simp only at hpath htok
    subst hpath; subst htok
    rw [handleRequest_calendar_token, if_neg hne,
      if_neg (by simp [hcfg]),
      downloadICSFile_noUrl _ u hurl]
    rfl

/-- C8 witness: with no configuration at all, a concrete calendar request
is refused with 401 rather than served. -/
theorem missing_config_not_fatal_witness :
    (handleRequest ⟨none, none⟩ sampleUpstream
        ⟨"GET", "/calendar.ics", some "secret123"⟩).1.status = 401 :=
  ((missing_config_not_fatal ⟨none, none⟩).2.2.1 rfl sampleUpstream
    ⟨"GET", "/calendar.ics", some "secret123"⟩ rfl).1

/-- C9: a request to `/calendar.ics` with `?token=` (the parameter present
with empty value) is treated exactly like an absent token: 401 with the
token-required body, never the invalid-token body, whatever the configured
access token is (including an empty one), and no upstream fetch. -/
theorem empty_token_treated_as_missing (cfg : Config)
    (u : UpstreamResponse) (req : Request)
    (hpath : req.path = "/calendar.ics") (htok : req.token = some "") :
    handleRequest cfg u req =
      ({ status := 401, headers := [("Content-Type", "text/plain")],
         body := "Unauthorized: Token parameter required" }, 0) ∧
    handleRequest cfg u req = handleRequest cfg u { req with token := none } := by
  obtain ⟨m, p, tok⟩ := req
  simp only at hpath htok
  subst hpath; subst htok
  exact ⟨rfl, rfl⟩

/-- C9 witness: `?token=` against a configured empty access token still
gets the token-required message. -/
theorem empty_token_treated_as_missing_witness :
    handleRequest ⟨some "https://example.test/cal.ics", some ""⟩
      sampleUpstream ⟨"GET", "/calendar.ics", some ""⟩ =
      ({ status := 401, headers := [("Content-Type", "text/plain")],
         body := "Unauthorized: Token parameter required" }, 0) :=
  (empty_token_treated_as_missing ⟨some "https://example.test/cal.ics",
    some ""⟩ sampleUpstream ⟨"GET", "/calendar.ics", some ""⟩ rfl rfl).1

/-- C10: request dispatch never reads the HTTP method: in both variants,
two requests differing only in method get identical responses (and
identical upstream fetch counts), for every path, token and
configuration. -/
theorem dispatch_ignores_method (cfg : Config) (u : UpstreamResponse)
    (m m' p : String) (tok : Option String) :
    handleRequest cfg u ⟨m, p, tok⟩ = handleRequest cfg u ⟨m', p, tok⟩ ∧
    handleRequestNoAuth cfg u ⟨m, p, tok⟩ =
      handleRequestNoAuth cfg u ⟨m', p, tok⟩ :=
  ⟨rfl, rfl⟩
